import Mathlib

/-
Verification development for the backend API of the nextjs-microfrontend
repository (apps/backend/main.go): user CRUD, feature-flag CRUD with an
in-memory read cache, a database seeding endpoint, and a zone health
checker.  The Go handlers are shallowly embedded as pure functions over an
explicit state; database errors in the seed path are modelled by an
injected failure oracle.
-/

namespace Backend

/-- User record as stored in the users table.  Timestamps (createdAt,
updatedAt) are managed by the datastore and are not modelled; the numeric
surrogate id is assigned by the datastore on insert. -/
structure User where
  id : Nat
  email : String
  name : String
deriving Repr, DecidableEq

/-- FeatureFlag record as stored in the feature_flags table.  Timestamps
are managed by the datastore and are not modelled. -/
structure FeatureFlag where
  id : Nat
  key : String
  name : String
  description : String
  enabled : Bool
deriving Repr, DecidableEq

/-- Result of the JSON decode of a POST /api/users body into the Go User
struct: fields absent from the body decode to the Go zero value (empty
string).  Datastore-assigned fields (id, timestamps) are not part of the
request body. -/
structure UserBody where
  email : String := ""
  name : String := ""
deriving Repr, DecidableEq

/-- Result of the JSON decode of a POST /api/feature-flags body into the
Go FeatureFlag struct: fields absent from the body decode to the Go zero
value (empty string for key, name, description; false for enabled).
Datastore-assigned fields (id, timestamps) are not part of the body. -/
structure FlagBody where
  key : String := ""
  name : String := ""
  description : String := ""
  enabled : Bool := false
deriving Repr, DecidableEq

/-- The decoded body of a PATCH /api/feature-flags request: Go decodes it
as an arbitrary JSON map.  We model the presence or absence of each column
recognised by the gorm Updates call as an Option field (none = the key is
absent from the map). -/
structure FlagUpdates where
  key : Option String := none
  name : Option String := none
  description : Option String := none
  enabled : Option Bool := none
deriving Repr, DecidableEq

/-- An HTTP handler outcome: a success body with its status code, or an
error status code with the message passed to http.Error. -/
inductive Response (α : Type) where
  | success (code : Nat) (body : α)
  | failure (code : Nat) (message : String)
deriving Repr, DecidableEq

/-- The flag cache (the global sync.Map flagCache) as an association list
from flag key to flag record.  Store overwrites, Load returns the entry if
present, Delete removes it. -/
abbrev Cache : Type := List (String × FeatureFlag)

/-- flagCache.Store: unconditional overwrite of the entry for a key. -/
def cacheStore (c : Cache) (k : String) (f : FeatureFlag) : Cache :=
  (k, f) :: c.filter (fun p => p.1 ≠ k)

/-- flagCache.Load: in-memory lookup, never touches the datastore. -/
def cacheLoad (c : Cache) (k : String) : Option FeatureFlag :=
  (List.find? (fun p => p.1 == k) c).map Prod.snd

/-- flagCache.Delete: remove the entry for a key. -/
def cacheDelete (c : Cache) (k : String) : Cache :=
  c.filter (fun p => p.1 ≠ k)

/-- The full mutable state a request handler can observe: the two
datastore tables (with the next serial id for each) and the in-process
flag cache. -/
structure BackendState where
  users : List User
  userNextId : Nat
  flags : List FeatureFlag
  flagNextId : Nat
  flagCache : Cache
deriving Repr, DecidableEq

/-- The state of a freshly migrated empty database and an empty cache. -/
def initialState : BackendState :=
  { users := [], userNextId := 1, flags := [], flagNextId := 1, flagCache := [] }

/-- A concrete disabled flag, used to instantiate theorems. -/
def flagOff : FeatureFlag :=
  { id := 1, key := "k", name := "n", description := "", enabled := false }

/-- A concrete enabled flag, used to instantiate theorems. -/
def flagOn : FeatureFlag :=
  { id := 1, key := "k", name := "n", description := "", enabled := true }

/-- A state whose datastore holds exactly flagOff, with an empty cache. -/
def oneFlagState : BackendState :=
  { users := [], userNextId := 1, flags := [flagOff], flagNextId := 2, flagCache := [] }

/-- A state whose cache holds flagOn under its key while the datastore is
empty, used to instantiate cache-hit theorems. -/
def cachedFlagState : BackendState :=
  { users := [], userNextId := 1, flags := [], flagNextId := 2,
    flagCache := [("k", flagOn)] }

/-- A second concrete flag with a distinct id and key, used to instantiate
unique-index collisions. -/
def flagB : FeatureFlag :=
  { id := 2, key := "b", name := "m", description := "", enabled := false }

/-- A state whose datastore holds flagOff and flagB, with an empty cache,
used to instantiate a key-colliding PATCH. -/
def twoFlagState : BackendState :=
  { users := [], userNextId := 1, flags := [flagOff, flagB], flagNextId := 3,
    flagCache := [] }

/-- A state whose datastore already holds users with the five sample
emails, used to instantiate seeding theorems. -/
def seededState : BackendState :=
  { users := [ { id := 1, email := "alice@example.com", name := "Alice Johnson" },
               { id := 2, email := "bob@example.com", name := "Bob Smith" },
               { id := 3, email := "charlie@example.com", name := "Charlie Brown" },
               { id := 4, email := "diana@example.com", name := "Diana Prince" },
               { id := 5, email := "eve@example.com", name := "Eve Anderson" } ],
    userNextId := 6, flags := [], flagNextId := 1, flagCache := [] }

/-! Zone health checking (checkZoneHealth). -/

/-- Outcome of the outbound GET issued by the 5-second-timeout HTTP
client: either a transport-level failure carrying the error text
(connection refused, timeout, DNS failure), or a received HTTP response
with its status code. -/
inductive HttpOutcome where
  | transportError (msg : String)
  | response (statusCode : Nat)
deriving Repr, DecidableEq

/-- Health status of one zone, as reported by /api/zones/status.  The
lastCheck timestamp is real time and is not modelled. -/
structure ZoneStatus where
  name : String
  status : String
  url : String
  message : String
deriving Repr, DecidableEq

/-- checkZoneHealth from main.go: classifies the outcome of one probe.
Transport failure yields unhealthy with the formatted error; status 200
yields healthy; any other received status yields degraded with the code
in the message. -/
def checkZoneHealth (name url : String) (outcome : HttpOutcome) : ZoneStatus :=
  match outcome with
  | .transportError e =>
      { name := name, url := url, status := "unhealthy",
        message := "Connection failed: " ++ e }
  | .response code =>
      if code = 200 then
        { name := name, url := url, status := "healthy",
          message := "Zone is responding" }
      else
        { name := name, url := url, status := "degraded",
          message := "HTTP " ++ toString code }

/-! User handlers. -/

/-- getUsersHandler: GET /api/users returns every user (datastore errors
on plain reads are not modelled). -/
def getUsersHandler (st : BackendState) : Response (List User) × BackendState :=
  (.success 200 st.users, st)

/-- createUserHandler: POST /api/users.  Validates that email and name are
non-empty (400 otherwise), then inserts.  The unique index on email makes
the insert fail when the email already exists; db.Create surfaces that as
a 500 and the datastore is unchanged. -/
def createUserHandler (body : UserBody) (st : BackendState) :
    Response User × BackendState :=
  if body.email = "" ∨ body.name = "" then
    (.failure 400 "Email and name are required", st)
  else if st.users.any (fun u => u.email == body.email) then
    (.failure 500 "Failed to create user: duplicate email", st)
  else
    let user : User := { id := st.userNextId, email := body.email, name := body.name }
    (.success 201 user,
     { st with users := st.users ++ [user], userNextId := st.userNextId + 1 })

/-- getUserHandler: GET /api/users/:id. -/
def getUserHandler (id : Nat) (st : BackendState) : Response User × BackendState :=
  match st.users.find? (fun u => u.id == id) with
  | some u => (.success 200 u, st)
  | none => (.failure 404 "User not found", st)

/-- deleteUserHandler: DELETE /api/users/:id.  Deletes by id; 404 when no
row was affected. -/
def deleteUserHandler (id : Nat) (st : BackendState) :
    Response String × BackendState :=
  let remaining := st.users.filter (fun u => u.id ≠ id)
  if remaining.length = st.users.length then
    (.failure 404 "User not found", st)
  else
    (.success 200 "User deleted successfully", { st with users := remaining })

/-! Seeding (seedDatabaseHandler). -/

/-- The fixed sample users seeded by POST /api/seed, in iteration order. -/
def sampleUsers : List UserBody :=
  [ { email := "alice@example.com", name := "Alice Johnson" },
    { email := "bob@example.com", name := "Bob Smith" },
    { email := "charlie@example.com", name := "Charlie Brown" },
    { email := "diana@example.com", name := "Diana Prince" },
    { email := "eve@example.com", name := "Eve Anderson" } ]

/-- The JSON body returned by POST /api/seed, together with the HTTP
status code the handler writes. -/
structure SeedResponse where
  totalUsers : Nat
  created : Nat
  skipped : Nat
  errors : List String
  errorCount : Nat
  httpStatus : Nat
deriving Repr, DecidableEq

/-- The per-item loop of seedDatabaseHandler.  Each iteration performs
db.Where(email).FirstOrCreate: on a datastore error (injected by the
failure oracle at the item index) the error message is appended and the
loop continues; otherwise an existing email is counted as skipped and a
missing one is inserted and counted as created.  Returns the counters
(created, skipped, error messages) and the final state. -/
def seedItems (fail : Nat → Bool) : Nat → List UserBody → BackendState →
    (Nat × Nat × List String) × BackendState
  | _, [], st => ((0, 0, []), st)
  | i, u :: rest, st =>
    if fail i then
      let r := seedItems fail (i + 1) rest st
      ((r.1.1, r.1.2.1, ("Error creating user " ++ u.email) :: r.1.2.2), r.2)
    else if st.users.any (fun x => x.email == u.email) then
      let r := seedItems fail (i + 1) rest st
      ((r.1.1, r.1.2.1 + 1, r.1.2.2), r.2)
    else
      let user : User := { id := st.userNextId, email := u.email, name := u.name }
      let r := seedItems fail (i + 1) rest
        { st with users := st.users ++ [user], userNextId := st.userNextId + 1 }
      ((r.1.1 + 1, r.1.2.1, r.1.2.2), r.2)

/-- seedDatabaseHandler: POST /api/seed.  Runs the per-item loop over the
fixed sample users and reports totals; the written status code is 500 when
at least one error occurred and no user was created, and 200 otherwise. -/
def seedDatabaseHandler (fail : Nat → Bool) (st : BackendState) :
    SeedResponse × BackendState :=
  let r := seedItems fail 0 sampleUsers st
  ({ totalUsers := sampleUsers.length,
     created := r.1.1,
     skipped := r.1.2.1,
     errors := r.1.2.2,
     errorCount := r.1.2.2.length,
     httpStatus := if r.1.2.2.length > 0 ∧ r.1.1 = 0 then 500 else 200 }, r.2)

/-! Feature-flag handlers. -/

/-- getFeatureFlagsHandler: GET /api/feature-flags.  Queries the datastore
unconditionally, refreshes the cache entry of every returned flag, and
returns the list. -/
def getFeatureFlagsHandler (st : BackendState) :
    Response (List FeatureFlag) × BackendState :=
  (.success 200 st.flags,
   { st with flagCache := st.flags.foldl (fun c f => cacheStore c f.key f) st.flagCache })

/-- getFeatureFlagHandler: GET /api/feature-flags/key.  Cache first; on a
hit the cached record is returned unchanged.  On a miss the datastore is
queried; on success the record is stored in the cache before responding,
and a missing key is a 404. -/
def getFeatureFlagHandler (key : String) (st : BackendState) :
    Response FeatureFlag × BackendState :=
  match cacheLoad st.flagCache key with
  | some f => (.success 200 f, st)
  | none =>
    match st.flags.find? (fun f => f.key == key) with
    | some f => (.success 200 f, { st with flagCache := cacheStore st.flagCache key f })
    | none => (.failure 404 "Feature flag not found", st)

/-- createFeatureFlagHandler: POST /api/feature-flags.  Validates that key
and name are non-empty (400 otherwise); the unique index on key makes the
insert fail when the key already exists (500, datastore unchanged).  On
success the decoded record, enabled value included, is inserted, stored in
the cache and returned with 201. -/
def createFeatureFlagHandler (body : FlagBody) (st : BackendState) :
    Response FeatureFlag × BackendState :=
  if body.key = "" ∨ body.name = "" then
    (.failure 400 "Key and name are required", st)
  else if st.flags.any (fun f => f.key == body.key) then
    (.failure 500 "Failed to create feature flag: duplicate key", st)
  else
    let flag : FeatureFlag :=
      { id := st.flagNextId, key := body.key, name := body.name,
        description := body.description, enabled := body.enabled }
    (.success 201 flag,
     { st with flags := st.flags ++ [flag], flagNextId := st.flagNextId + 1,
               flagCache := cacheStore st.flagCache flag.key flag })

/-- gorm Updates with a map: every column present in the map is assigned,
every absent column keeps its prior value (the primary key id is never in
the map). -/
def applyUpdates (f : FeatureFlag) (u : FlagUpdates) : FeatureFlag :=
  { id := f.id,
    key := u.key.getD f.key,
    name := u.name.getD f.name,
    description := u.description.getD f.description,
    enabled := u.enabled.getD f.enabled }

/-- updateFeatureFlagHandler: PATCH /api/feature-flags/key.  Loads the
first flag with the path key (404 when absent), then applies the update
map with no field validation: the UPDATE runs against the row with the
loaded primary key id, and the unique index on key makes it fail when the
updated key collides with a different row (gorm Updates returns the error,
the handler answers 500 and the datastore, reload and cache are all left
untouched).  On success it reloads by the path key (a failed reload is
ignored and the already-assigned struct is kept), stores the result in the
cache under the path key and returns it. -/
def updateFeatureFlagHandler (key : String) (u : FlagUpdates) (st : BackendState) :
    Response FeatureFlag × BackendState :=
  match st.flags.find? (fun f => f.key == key) with
  | none => (.failure 404 "Feature flag not found", st)
  | some f =>
    let f2 := applyUpdates f u
    if st.flags.any (fun g => g.id != f.id && g.key == f2.key) then
      (.failure 500 "Failed to update feature flag: duplicate key", st)
    else
      let flags2 := st.flags.map (fun g => if g.id == f.id then f2 else g)
      let reloaded := (flags2.find? (fun g => g.key == key)).getD f2
      (.success 200 reloaded,
       { st with flags := flags2, flagCache := cacheStore st.flagCache key reloaded })

/-- deleteFeatureFlagHandler: DELETE /api/feature-flags/key.  Deletes the
rows with the key (404 when no row was affected) and removes the cache
entry. -/
def deleteFeatureFlagHandler (key : String) (st : BackendState) :
    Response String × BackendState :=
  let remaining := st.flags.filter (fun f => f.key ≠ key)
  if remaining.length = st.flags.length then
    (.failure 404 "Feature flag not found", st)
  else
    (.success 200 "Feature flag deleted successfully",
     { st with flags := remaining, flagCache := cacheDelete st.flagCache key })

/-! State invariant and the API operation type. -/

/-- The non-empty-required-fields invariant over the datastore: every
stored user has non-empty email and name, every stored flag has non-empty
key and name. -/
def StateInv (st : BackendState) : Prop :=
  (∀ u ∈ st.users, u.email ≠ "" ∧ u.name ≠ "")
  ∧ (∀ f ∈ st.flags, f.key ≠ "" ∧ f.name ≠ "")

/-- One API request together with its decoded input (a seed call carries
the failure oracle that models datastore errors during that call). -/
inductive ApiOp where
  | getUsers
  | createUser (body : UserBody)
  | getUser (id : Nat)
  | deleteUser (id : Nat)
  | seed (fail : Nat → Bool)
  | getFlags
  | getFlag (key : String)
  | createFlag (body : FlagBody)
  | updateFlag (key : String) (u : FlagUpdates)
  | deleteFlag (key : String)

/-- The state transition performed by one API request (response dropped). -/
def ApiOp.stepState : ApiOp → BackendState → BackendState
  | .getUsers, st => (getUsersHandler st).2
  | .createUser b, st => (createUserHandler b st).2
  | .getUser i, st => (getUserHandler i st).2
  | .deleteUser i, st => (deleteUserHandler i st).2
  | .seed fail, st => (seedDatabaseHandler fail st).2
  | .getFlags, st => (getFeatureFlagsHandler st).2
  | .getFlag k, st => (getFeatureFlagHandler k st).2
  | .createFlag b, st => (createFeatureFlagHandler b st).2
  | .updateFlag k u, st => (updateFeatureFlagHandler k u st).2
  | .deleteFlag k, st => (deleteFeatureFlagHandler k st).2

/-- An operation that does not smuggle empty required fields through the
unvalidated PATCH map. -/
def ApiOp.benign : ApiOp → Prop
  | .updateFlag _ u => u.key ≠ some "" ∧ u.name ≠ some ""
  | _ => True

/-! Helper lemmas about the cache. -/

theorem cacheLoad_cacheStore_self (c : Cache) (k : String) (f : FeatureFlag) :
    cacheLoad (cacheStore c k f) k = some f := by
  simp [cacheLoad, cacheStore, List.find?_cons]

theorem find?_filter_ne (c : Cache) (k k2 : String) (h : k2 ≠ k) :
    List.find? (fun p => p.1 == k2) (c.filter (fun p => p.1 ≠ k))
      = List.find? (fun p => p.1 == k2) c := by
  rw [List.find?_filter]
  congr 1
  funext p
  have hkk2 : ¬k = k2 := fun hh => h hh.symm
  by_cases h1 : p.1 = k <;> by_cases h2 : p.1 = k2 <;> simp [h1, h2, hkk2, h]

theorem cacheLoad_cacheStore_ne (c : Cache) (k k2 : String) (f : FeatureFlag)
    (h : k2 ≠ k) : cacheLoad (cacheStore c k f) k2 = cacheLoad c k2 := by
  have hk : (k == k2) = false := by
    simp only [beq_eq_false_iff_ne, ne_eq]
    exact fun hh => h hh.symm
  unfold cacheLoad cacheStore
  rw [List.find?_cons_of_neg _ (by simp [hk]), find?_filter_ne c k k2 h]

/-- C4: checkZoneHealth classifies probe outcomes exactly three ways:
transport-level failure yields unhealthy with a message describing the
failure, a received status 200 yields healthy with the fixed message, and
any other received status yields degraded with a message containing the
numeric status code. -/
theorem checkZoneHealth_classification (name url emsg : String) (code : Nat) :
    checkZoneHealth name url (.transportError emsg) =
      { name := name, url := url, status := "unhealthy",
        message := "Connection failed: " ++ emsg }
    ∧ checkZoneHealth name url (.response 200) =
      { name := name, url := url, status := "healthy",
        message := "Zone is responding" }
    ∧ (code ≠ 200 →
        checkZoneHealth name url (.response code) =
          { name := name, url := url, status := "degraded",
            message := "HTTP " ++ toString code }
        ∧ ∃ s t, (checkZoneHealth name url (.response code)).message =
            s ++ toString code ++ t) :=
  ⟨rfl, by simp [checkZoneHealth],
   fun h => ⟨by simp [checkZoneHealth, h], ⟨"HTTP ", "", by simp [checkZoneHealth, h]⟩⟩⟩

theorem checkZoneHealth_classification_witness :
    (503 : Nat) ≠ 200 ∧
    checkZoneHealth "zone-admin" "http://zone-admin/admin" (.response 503) =
      { name := "zone-admin", url := "http://zone-admin/admin",
        status := "degraded", message := "HTTP " ++ toString (503 : Nat) } :=
  ⟨by decide,
   ((checkZoneHealth_classification "zone-admin" "http://zone-admin/admin" "x" 503).2.2
     (by decide)).1⟩

/-- C1 counterexample: a POST /api/feature-flags body that supplies
enabled = true creates (201) a flag whose enabled field is true, and the
immediately following GET of that key also returns enabled = true — the
handler copies the decoded enabled value into the created record and does
not force it to false. -/
theorem createFeatureFlag_not_forced_disabled :
    ((createFeatureFlagHandler { key := "nd", name := "New Dashboard", enabled := true }
        initialState).1 =
      .success 201 { id := 1, key := "nd", name := "New Dashboard",
                     description := "", enabled := true })
    ∧ ((getFeatureFlagHandler "nd"
        (createFeatureFlagHandler { key := "nd", name := "New Dashboard", enabled := true }
          initialState).2).1 =
      .success 200 { id := 1, key := "nd", name := "New Dashboard",
                     description := "", enabled := true }) := by
  constructor <;> decide

/-- C1 amended: for every POST /api/feature-flags request with non-empty
key and name (and no pre-existing flag with that key), the created flag is
returned with status 201 and carries the enabled value decoded from the
request body — false whenever the body omitted it (the Go zero value),
but true when the body supplied true — and a subsequent GET of the key
returns that same record. -/
theorem createFeatureFlag_enabled_from_body (body : FlagBody) (st : BackendState)
    (hk : body.key ≠ "") (hn : body.name ≠ "")
    (hdup : ∀ f ∈ st.flags, f.key ≠ body.key) :
    ∃ flag : FeatureFlag,
      (createFeatureFlagHandler body st).1 = .success 201 flag
      ∧ flag.enabled = body.enabled
      ∧ (body.enabled = false → flag.enabled = false)
      ∧ (getFeatureFlagHandler body.key (createFeatureFlagHandler body st).2).1 =
          .success 200 flag := by
  have hany : (st.flags.any (fun f => f.key == body.key)) = false := by
    simp only [List.any_eq_false, beq_eq_false_iff_ne, ne_eq]
    intro f hf
    simpa using hdup f hf
  refine ⟨{ id := st.flagNextId, key := body.key, name := body.name,
            description := body.description, enabled := body.enabled }, ?_, rfl, fun h => h, ?_⟩
  · simp [createFeatureFlagHandler, hk, hn, hany]
  · simp [createFeatureFlagHandler, hk, hn, hany, getFeatureFlagHandler,
          cacheLoad_cacheStore_self]

theorem createFeatureFlag_enabled_from_body_witness :
    ("nd" ≠ "" ∧ "New Dashboard" ≠ ""
      ∧ (∀ f ∈ initialState.flags, f.key ≠ "nd"))
    ∧ ∃ flag : FeatureFlag,
      (createFeatureFlagHandler { key := "nd", name := "New Dashboard" } initialState).1 =
        .success 201 flag
      ∧ flag.enabled = ({ key := "nd", name := "New Dashboard" } : FlagBody).enabled
      ∧ (({ key := "nd", name := "New Dashboard" } : FlagBody).enabled = false →
          flag.enabled = false)
      ∧ (getFeatureFlagHandler "nd"
          (createFeatureFlagHandler { key := "nd", name := "New Dashboard" } initialState).2).1 =
          .success 200 flag :=
  ⟨⟨by decide, by decide, by simp [initialState]⟩,
   createFeatureFlag_enabled_from_body { key := "nd", name := "New Dashboard" } initialState
     (by decide) (by decide) (by simp [initialState])⟩

/-! Helper lemmas about seedItems. -/

theorem seedItems_flags_eq (fail : Nat → Bool) :
    ∀ (l : List UserBody) (i : Nat) (st : BackendState),
      (seedItems fail i l st).2.flags = st.flags := by
  intro l
  induction l with
  | nil => intro i st; rfl
  | cons b rest ih =>
    intro i st
    simp only [seedItems]
    by_cases hf : fail i
    · simp [hf, ih]
    · by_cases hx : st.users.any (fun x => x.email == b.email) <;> simp [hf, hx, ih]

theorem seedItems_users_sub (fail : Nat → Bool) :
    ∀ (l : List UserBody) (i : Nat) (st : BackendState) (u : User),
      u ∈ (seedItems fail i l st).2.users →
      u ∈ st.users ∨ ∃ b ∈ l, u.email = b.email ∧ u.name = b.name := by
  intro l
  induction l with
  | nil => intro i st u hu; exact Or.inl hu
  | cons b rest ih =>
    intro i st u hu
    simp only [seedItems] at hu
    by_cases hf : fail i
    · rw [if_pos hf] at hu
      rcases ih (i + 1) st u hu with h1 | ⟨b2, hb2, he⟩
      · exact Or.inl h1
      · exact Or.inr ⟨b2, List.mem_cons_of_mem b hb2, he⟩
    · rw [if_neg hf] at hu
      by_cases hx : st.users.any (fun x => x.email == b.email)
      · rw [if_pos hx] at hu
        rcases ih (i + 1) st u hu with h1 | ⟨b2, hb2, he⟩
        · exact Or.inl h1
        · exact Or.inr ⟨b2, List.mem_cons_of_mem b hb2, he⟩
      · rw [if_neg hx] at hu
        rcases ih (i + 1) _ u hu with h1 | ⟨b2, hb2, he⟩
        · rcases List.mem_append.1 h1 with h2 | h2
          · exact Or.inl h2
          · rcases List.mem_singleton.1 h2 with rfl
            exact Or.inr ⟨b, List.mem_cons_self b rest, rfl, rfl⟩
        · exact Or.inr ⟨b2, List.mem_cons_of_mem b hb2, he⟩

/-- C2 counterexample: PATCH /api/feature-flags/k with the single-field
map name = "" is accepted with 200 — not rejected with 400 — and leaves a
flag with an empty name stored in the datastore, so the PATCH handler
performs no required-field validation and the non-empty invariant is not
preserved by arbitrary field maps. -/
theorem patch_stores_empty_name :
    (updateFeatureFlagHandler "k" { name := some "" } oneFlagState).1 =
      .success 200 { id := 1, key := "k", name := "", description := "", enabled := false }
    ∧ (updateFeatureFlagHandler "k" { name := some "" } oneFlagState).2.flags =
      [{ id := 1, key := "k", name := "", description := "", enabled := false }] := by
  constructor <;> decide

/-- C2 amended: the create endpoints validate required fields before any
datastore modification and reject empty email, name or key with a 400
response leaving the state untouched; PATCH applies its field map with no
validation, so the stored-records invariant (every user has non-empty
email and name, every flag non-empty key and name) is preserved by every
operation except a PATCH whose map explicitly supplies an empty key or
name — for every sequence avoiding such PATCHes the invariant holds. -/
theorem writes_validate_and_preserve_inv :
    (∀ (b : UserBody) (st : BackendState), b.email = "" ∨ b.name = "" →
        createUserHandler b st = (.failure 400 "Email and name are required", st))
    ∧ (∀ (b : FlagBody) (st : BackendState), b.key = "" ∨ b.name = "" →
        createFeatureFlagHandler b st = (.failure 400 "Key and name are required", st))
    ∧ (∀ (op : ApiOp) (st : BackendState), op.benign → StateInv st →
        StateInv (op.stepState st)) := by
  refine ⟨?_, ?_, ?_⟩
  · intro b st h
    simp [createUserHandler, h]
  · intro b st h
    simp [createFeatureFlagHandler, h]
  · intro op st hb hinv
    obtain ⟨hu, hf⟩ := hinv
    cases op with
    | getUsers => exact ⟨hu, hf⟩
    | getUser i =>
      simp only [ApiOp.stepState, getUserHandler]
      cases st.users.find? (fun u => u.id == i) <;> exact ⟨hu, hf⟩
    | createUser b =>
      simp only [ApiOp.stepState, createUserHandler]
      by_cases h1 : b.email = "" ∨ b.name = ""
      · simp only [if_pos h1]; exact ⟨hu, hf⟩
      · rw [if_neg h1]
        by_cases h2 : st.users.any (fun u => u.email == b.email)
        · simp only [if_pos h2]; exact ⟨hu, hf⟩
        · rw [if_neg h2]
          push_neg at h1
          refine ⟨?_, hf⟩
          intro u hmem
          rcases List.mem_append.1 hmem with h3 | h3
          · exact hu u h3
          · rcases List.mem_singleton.1 h3 with rfl
            exact ⟨h1.1, h1.2⟩
    | deleteUser i =>
      simp only [ApiOp.stepState, deleteUserHandler]
      by_cases h1 : (st.users.filter (fun u => u.id ≠ i)).length = st.users.length
      · simp only [if_pos h1]; exact ⟨hu, hf⟩
      · rw [if_neg h1]
        exact ⟨fun u hmem => hu u (List.mem_of_mem_filter hmem), hf⟩
    | seed fail =>
      simp only [ApiOp.stepState, seedDatabaseHandler]
      constructor
      · intro u hmem
        rcases seedItems_users_sub fail sampleUsers 0 st u hmem with h1 | ⟨b, hbmem, he, hn⟩
        · exact hu u h1
        · rw [he, hn]
          revert hbmem
          have : ∀ b ∈ sampleUsers, b.email ≠ "" ∧ b.name ≠ "" := by decide
          exact this b
      · intro g hmem
        rw [seedItems_flags_eq fail sampleUsers 0 st] at hmem
        exact hf g hmem
    | getFlags =>
      exact ⟨hu, hf⟩
    | getFlag k =>
      simp only [ApiOp.stepState, getFeatureFlagHandler]
      cases cacheLoad st.flagCache k with
      | some f => exact ⟨hu, hf⟩
      | none =>
        cases st.flags.find? (fun f => f.key == k) with
        | some f => exact ⟨hu, hf⟩
        | none => exact ⟨hu, hf⟩
    | createFlag b =>
      simp only [ApiOp.stepState, createFeatureFlagHandler]
      by_cases h1 : b.key = "" ∨ b.name = ""
      · simp only [if_pos h1]; exact ⟨hu, hf⟩
      · rw [if_neg h1]
        by_cases h2 : st.flags.any (fun f => f.key == b.key)
        · simp only [if_pos h2]; exact ⟨hu, hf⟩
        · rw [if_neg h2]
          push_neg at h1
          refine ⟨hu, ?_⟩
          intro g hmem
          rcases List.mem_append.1 hmem with h3 | h3
          · exact hf g h3
          · rcases List.mem_singleton.1 h3 with rfl
            exact ⟨h1.1, h1.2⟩
    | updateFlag k u =>
      simp only [ApiOp.stepState]
      cases hfind : st.flags.find? (fun f => f.key == k) with
      | none =>
        have hup : updateFeatureFlagHandler k u st =
            (.failure 404 "Feature flag not found", st) := by
          unfold updateFeatureFlagHandler
          rw [hfind]
        rw [hup]
        exact ⟨hu, hf⟩
      | some f =>
        by_cases hcol : (st.flags.any
            (fun g => g.id != f.id && g.key == (applyUpdates f u).key)) = true
        · have hup : updateFeatureFlagHandler k u st =
              (.failure 500 "Failed to update feature flag: duplicate key", st) := by
            unfold updateFeatureFlagHandler
            rw [hfind]
            simp [hcol]
          rw [hup]
          exact ⟨hu, hf⟩
        · have hany : (st.flags.any
              (fun g => g.id != f.id && g.key == (applyUpdates f u).key)) = false := by
            simpa using hcol
          have hflags : (updateFeatureFlagHandler k u st).2.flags =
              st.flags.map (fun g => if g.id == f.id then applyUpdates f u else g) := by
            unfold updateFeatureFlagHandler
            rw [hfind]
            simp only [hany, Bool.false_eq_true, if_false]
          have husers : (updateFeatureFlagHandler k u st).2.users = st.users := by
            unfold updateFeatureFlagHandler
            rw [hfind]
            simp only [hany, Bool.false_eq_true, if_false]
          refine ⟨by rw [husers]; exact hu, ?_⟩
          intro g hmem
          rw [hflags] at hmem
          rcases List.mem_map.1 hmem with ⟨g0, hg0, hg0eq⟩
          by_cases hid : (g0.id == f.id) = true
          · rw [if_pos hid] at hg0eq
            obtain ⟨hfk, hfn⟩ := hf f (List.mem_of_find?_eq_some hfind)
            obtain ⟨hbk, hbn⟩ := hb
            rw [← hg0eq]
            constructor
            · cases hk : u.key with
              | none => simpa [applyUpdates, hk] using hfk
              | some s =>
                simp only [applyUpdates, hk, Option.getD_some]
                intro hs
                exact hbk (by rw [hk, hs])
            · cases hn : u.name with
              | none => simpa [applyUpdates, hn] using hfn
              | some s =>
                simp only [applyUpdates, hn, Option.getD_some]
                intro hs
                exact hbn (by rw [hn, hs])
          · rw [if_neg hid] at hg0eq
            rw [← hg0eq]
            exact hf g0 hg0
    | deleteFlag k =>
      simp only [ApiOp.stepState, deleteFeatureFlagHandler]
      by_cases h1 : (st.flags.filter (fun f => f.key ≠ k)).length = st.flags.length
      · simp only [if_pos h1]; exact ⟨hu, hf⟩
      · rw [if_neg h1]
        exact ⟨hu, fun g hmem => hf g (List.mem_of_mem_filter hmem)⟩

theorem writes_validate_and_preserve_inv_witness :
    (createUserHandler { email := "", name := "Alice" } initialState =
      (.failure 400 "Email and name are required", initialState))
    ∧ (createFeatureFlagHandler { key := "", name := "x" } initialState =
      (.failure 400 "Key and name are required", initialState))
    ∧ StateInv (ApiOp.stepState (.createFlag { key := "k", name := "n" }) initialState) :=
  ⟨writes_validate_and_preserve_inv.1 { email := "", name := "Alice" } initialState
      (Or.inl rfl),
   writes_validate_and_preserve_inv.2.1 { key := "", name := "x" } initialState
      (Or.inl rfl),
   writes_validate_and_preserve_inv.2.2 (.createFlag { key := "k", name := "n" })
      initialState trivial
      ⟨by simp [initialState], by simp [initialState]⟩⟩

theorem seedItems_sum (fail : Nat → Bool) :
    ∀ (l : List UserBody) (i : Nat) (st : BackendState),
      (seedItems fail i l st).1.1 + (seedItems fail i l st).1.2.1
        + (seedItems fail i l st).1.2.2.length = l.length := by
  intro l
  induction l with
  | nil => intro i st; rfl
  | cons b rest ih =>
    intro i st
    simp only [seedItems]
    by_cases hf : fail i
    · simp only [if_pos hf, List.length_cons]
      have := ih (i + 1) st
      omega
    · rw [if_neg hf]
      by_cases hx : st.users.any (fun x => x.email == b.email)
      · simp only [if_pos hx, List.length_cons]
        have := ih (i + 1) st
        omega
      · simp only [if_neg hx, List.length_cons]
        have := ih (i + 1)
          { st with users := st.users ++ [{ id := st.userNextId, email := b.email, name := b.name }],
                    userNextId := st.userNextId + 1 }
        omega

/-- C10: every POST /api/seed response partitions the 5 sample users into
created, skipped and errored: totalUsers is 5 and
created + skipped + errorCount = totalUsers, for every datastore failure
pattern and every starting state. -/
theorem seed_counts_partition (fail : Nat → Bool) (st : BackendState) :
    (seedDatabaseHandler fail st).1.totalUsers = 5
    ∧ (seedDatabaseHandler fail st).1.created + (seedDatabaseHandler fail st).1.skipped
        + (seedDatabaseHandler fail st).1.errorCount
      = (seedDatabaseHandler fail st).1.totalUsers := by
  refine ⟨rfl, ?_⟩
  have h := seedItems_sum fail sampleUsers 0 st
  simpa [seedDatabaseHandler] using h

/-- C3 counterexample: with the five sample users already present and a
datastore error on the first item only, seeding skips the remaining four
items successfully (skipped = 4) yet the handler writes HTTP 500, because
the status condition is "at least one error and zero created", not "every
insertion failed" — so a call in which four of the five insertions
succeeded still reports 500. -/
theorem seed_500_without_total_failure :
    (seedDatabaseHandler (fun i => i == 0) seededState).1 =
      { totalUsers := 5, created := 0, skipped := 4,
        errors := ["Error creating user alice@example.com"], errorCount := 1,
        httpStatus := 500 } := by
  decide

/-- C3 amended: POST /api/seed attempts all 5 insertions even when
individual ones fail (every item is accounted for as created, skipped or
errored, so one failure never aborts the rest), per-item errors are
returned as data in the errors list, and the written HTTP status is 500
exactly when at least one insertion errored and no user was created
(skipped items do not count as success for the status), and 200
otherwise. -/
theorem seed_status_rule (fail : Nat → Bool) (st : BackendState) :
    (seedDatabaseHandler fail st).1.created + (seedDatabaseHandler fail st).1.skipped
        + (seedDatabaseHandler fail st).1.errorCount = 5
    ∧ (seedDatabaseHandler fail st).1.errorCount
        = (seedDatabaseHandler fail st).1.errors.length
    ∧ (seedDatabaseHandler fail st).1.httpStatus
        = (if (seedDatabaseHandler fail st).1.errorCount > 0
              ∧ (seedDatabaseHandler fail st).1.created = 0 then 500 else 200) := by
  refine ⟨?_, rfl, rfl⟩
  have h := seedItems_sum fail sampleUsers 0 st
  simpa [seedDatabaseHandler] using h

theorem getFeatureFlagHandler_cache_hit (k : String) (f : FeatureFlag)
    (st : BackendState) (h : cacheLoad st.flagCache k = some f) :
    getFeatureFlagHandler k st = (.success 200 f, st) := by
  simp [getFeatureFlagHandler, h]

theorem cacheLoad_foldStore_not_mem :
    ∀ (l : List FeatureFlag) (c : Cache) (k : String),
      k ∉ l.map (fun f => f.key) →
      cacheLoad (l.foldl (fun c f => cacheStore c f.key f) c) k = cacheLoad c k := by
  intro l
  induction l with
  | nil => intro c k _; rfl
  | cons f0 rest ih =>
    intro c k hk
    simp only [List.map_cons, List.mem_cons, not_or] at hk
    rw [List.foldl_cons, ih _ k hk.2, cacheLoad_cacheStore_ne _ _ _ _ hk.1]

theorem cacheLoad_foldStore_mem :
    ∀ (l : List FeatureFlag) (c : Cache),
      (l.map (fun f => f.key)).Nodup →
      ∀ f ∈ l, cacheLoad (l.foldl (fun c f => cacheStore c f.key f) c) f.key = some f := by
  intro l
  induction l with
  | nil => intro c _ f hf; cases hf
  | cons f0 rest ih =>
    intro c hnd f hf
    simp only [List.map_cons, List.nodup_cons] at hnd
    rw [List.foldl_cons]
    rcases List.mem_cons.1 hf with rfl | hf2
    · rw [cacheLoad_foldStore_not_mem rest _ f.key hnd.1, cacheLoad_cacheStore_self]
    · exact ih _ hnd.2 f hf2

/-- C5: the single-flag GET consults the cache first — on a hit it
responds with the cached record, leaves the state unchanged and never
consults the datastore (the response is the same for every datastore
contents); on a miss it queries the datastore and, when the key is found,
populates the cache with the record before responding.  The list GET
returns the datastore contents unconditionally, whatever the cache holds,
and refreshes the cache entry of every returned flag. -/
theorem flag_read_cache_policy :
    (∀ (k : String) (f : FeatureFlag) (st : BackendState),
        cacheLoad st.flagCache k = some f →
        getFeatureFlagHandler k st = (.success 200 f, st)
        ∧ ∀ flags2, (getFeatureFlagHandler k { st with flags := flags2 }).1 =
            .success 200 f)
    ∧ (∀ (k : String) (f : FeatureFlag) (st : BackendState),
        cacheLoad st.flagCache k = none →
        st.flags.find? (fun g => g.key == k) = some f →
        getFeatureFlagHandler k st =
          (.success 200 f, { st with flagCache := cacheStore st.flagCache k f }))
    ∧ (∀ st : BackendState,
        (getFeatureFlagsHandler st).1 = .success 200 st.flags
        ∧ ((st.flags.map (fun f => f.key)).Nodup →
            ∀ f ∈ st.flags,
              cacheLoad (getFeatureFlagsHandler st).2.flagCache f.key = some f)) := by
  refine ⟨?_, ?_, ?_⟩
  · intro k f st h
    exact ⟨getFeatureFlagHandler_cache_hit k f st h,
           fun flags2 => by
             rw [getFeatureFlagHandler_cache_hit k f { st with flags := flags2 } h]⟩
  · intro k f st h1 h2
    simp [getFeatureFlagHandler, h1, h2]
  · intro st
    exact ⟨rfl, fun hnd f hf => cacheLoad_foldStore_mem st.flags st.flagCache hnd f hf⟩

theorem flag_read_cache_policy_witness :
    cacheLoad cachedFlagState.flagCache "k" = some flagOn
    ∧ getFeatureFlagHandler "k" cachedFlagState = (.success 200 flagOn, cachedFlagState)
    ∧ getFeatureFlagHandler "k" oneFlagState =
        (.success 200 flagOff,
         { oneFlagState with flagCache := cacheStore oneFlagState.flagCache "k" flagOff })
    ∧ cacheLoad (getFeatureFlagsHandler oneFlagState).2.flagCache "k" = some flagOff := by
  refine ⟨by decide, ?_, ?_, ?_⟩
  · exact (flag_read_cache_policy.1 "k" flagOn cachedFlagState (by decide)).1
  · exact flag_read_cache_policy.2.1 "k" flagOff oneFlagState (by decide) (by decide)
  · have h := (flag_read_cache_policy.2.2 oneFlagState).2 (by decide) flagOff (by decide)
    simpa [flagOff] using h

/-- C7: after a successful PATCH of flag X (one that responded 200 with a
record g, whatever the update map), an immediate GET of X returns exactly
that record g: the PATCH handler stores the reloaded record in the cache
under the path key, so the GET is a cache hit on the fresh value and never
observes the stale pre-update record.  Failed PATCHes (missing key, or a
unique-index violation on a key-changing map) are excluded by the success
hypothesis, as in the claim. -/
theorem patch_then_get_fresh (st : BackendState) (k : String) (u : FlagUpdates)
    (g : FeatureFlag)
    (hsucc : (updateFeatureFlagHandler k u st).1 = .success 200 g) :
    (getFeatureFlagHandler k (updateFeatureFlagHandler k u st).2).1 =
      .success 200 g := by
  cases hfind : st.flags.find? (fun x => x.key == k) with
  | none =>
    have hup : updateFeatureFlagHandler k u st =
        (.failure 404 "Feature flag not found", st) := by
      unfold updateFeatureFlagHandler
      rw [hfind]
    rw [hup] at hsucc
    exact absurd hsucc (by simp)
  | some f =>
    by_cases hcol : (st.flags.any
        (fun x => x.id != f.id && x.key == (applyUpdates f u).key)) = true
    · have hup : updateFeatureFlagHandler k u st =
          (.failure 500 "Failed to update feature flag: duplicate key", st) := by
        unfold updateFeatureFlagHandler
        rw [hfind]
        simp [hcol]
      rw [hup] at hsucc
      exact absurd hsucc (by simp)
    · have hany : (st.flags.any
          (fun x => x.id != f.id && x.key == (applyUpdates f u).key)) = false := by
        simpa using hcol
      have hup : updateFeatureFlagHandler k u st =
          (.success 200
            (((st.flags.map (fun x => if x.id == f.id then applyUpdates f u else x)).find?
                (fun x => x.key == k)).getD (applyUpdates f u)),
           { st with
               flags := st.flags.map (fun x => if x.id == f.id then applyUpdates f u else x),
               flagCache := cacheStore st.flagCache k
                 (((st.flags.map (fun x => if x.id == f.id then applyUpdates f u else x)).find?
                     (fun x => x.key == k)).getD (applyUpdates f u)) }) := by
        unfold updateFeatureFlagHandler
        rw [hfind]
        simp only [hany, Bool.false_eq_true, if_false]
      rw [hup] at hsucc
      have hbody : (((st.flags.map (fun x => if x.id == f.id then applyUpdates f u else x)).find?
          (fun x => x.key == k)).getD (applyUpdates f u)) = g := by
        injection hsucc
      subst hbody
      rw [hup, getFeatureFlagHandler_cache_hit _ _ _ (cacheLoad_cacheStore_self _ _ _)]

theorem patch_then_get_fresh_witness :
    ((updateFeatureFlagHandler "k" { enabled := some true } oneFlagState).1 =
      .success 200 flagOn)
    ∧ (getFeatureFlagHandler "k"
        (updateFeatureFlagHandler "k" { enabled := some true } oneFlagState).2).1 =
      .success 200 flagOn :=
  ⟨by decide,
   patch_then_get_fresh oneFlagState "k" { enabled := some true } flagOn (by decide)⟩

theorem ite_some_none_getD {α : Type} (c : Prop) [Decidable c] (x : α) :
    (if c then some x else none).getD x = x := by
  by_cases h : c <;> simp [h]

theorem find?_map_update (key : String) (f f2 : FeatureFlag) (hid2 : f2.id = f.id) :
    ∀ (l : List FeatureFlag),
      (l.map (fun g => g.key)).Nodup →
      (l.map (fun g => g.id)).Nodup →
      l.find? (fun g => g.key == key) = some f →
      (l.map (fun g => if g.id == f.id then f2 else g)).find? (fun g => g.key == key)
        = if f2.key == key then some f2 else none := by
  intro l
  induction l with
  | nil => intro _ _ h; cases h
  | cons a rest ih =>
    intro hk hid hfind
    simp only [List.map_cons, List.nodup_cons] at hk hid
    by_cases hak : (a.key == key) = true
    · rw [@List.find?_cons_of_pos _ (fun g => g.key == key) a rest hak] at hfind
      have hfa : a = f := by injection hfind
      subst hfa
      rw [List.map_cons, if_pos (beq_self_eq_true a.id)]
      by_cases hf2 : (f2.key == key) = true
      · rw [@List.find?_cons_of_pos _ (fun g => g.key == key) f2 _ hf2, if_pos hf2]
      · rw [if_neg hf2, @List.find?_cons_of_neg _ (fun g => g.key == key) f2 _ hf2]
        rw [List.find?_eq_none]
        intro x hx
        rcases List.mem_map.1 hx with ⟨g, hg, rfl⟩
        by_cases hgid : (g.id == a.id) = true
        · exact absurd (List.mem_map.2 ⟨g, hg, beq_iff_eq.1 hgid⟩) hid.1
        · rw [if_neg hgid]
          have hgk : g.key ≠ a.key := fun e => hk.1 (List.mem_map.2 ⟨g, hg, e⟩)
          have hak2 : a.key = key := beq_iff_eq.1 hak
          simp [hak2 ▸ hgk]
    · rw [@List.find?_cons_of_neg _ (fun g => g.key == key) a rest hak] at hfind
      have hfmem : f ∈ rest := List.mem_of_find?_eq_some hfind
      have haid : ¬(a.id == f.id) = true := by
        simp only [beq_iff_eq]
        intro e
        exact hid.1 (List.mem_map.2 ⟨f, hfmem, e.symm⟩)
      rw [List.map_cons, if_neg haid,
          @List.find?_cons_of_neg _ (fun g => g.key == key) a _ hak]
      exact ih hk.2 hid.2 hfind

/-- C6: for an existing flag (unique keys and ids in the datastore, as the
unique index and primary key guarantee), PATCH changes exactly the fields
present in the map and nothing else.  When the updated key collides with
no other row, the handler responds 200 with the record obtained by
overwriting exactly the supplied fields, the datastore rewrites only the
matching row and every absent field retains its prior value; when the
updated key collides with a different row, the unique index rejects the
UPDATE, the handler responds 500 and no stored field changes at all.  In
particular the single-field map enabled = true (which never collides)
followed by GET returns the flag with enabled true and name and
description unchanged. -/
theorem patch_partial_update (st : BackendState) (k : String) (u : FlagUpdates)
    (f : FeatureFlag)
    (hk : (st.flags.map (fun g => g.key)).Nodup)
    (hid : (st.flags.map (fun g => g.id)).Nodup)
    (hfind : st.flags.find? (fun g => g.key == k) = some f) :
    ((∀ g ∈ st.flags, g.id ≠ f.id → g.key ≠ (applyUpdates f u).key) →
      (updateFeatureFlagHandler k u st).1 = .success 200 (applyUpdates f u)
      ∧ (updateFeatureFlagHandler k u st).2.flags =
          st.flags.map (fun g => if g.id == f.id then applyUpdates f u else g)
      ∧ (u.key = none → (applyUpdates f u).key = f.key)
      ∧ (u.name = none → (applyUpdates f u).name = f.name)
      ∧ (u.description = none → (applyUpdates f u).description = f.description)
      ∧ (u.enabled = none → (applyUpdates f u).enabled = f.enabled)
      ∧ (∀ b, u.enabled = some b → (applyUpdates f u).enabled = b))
    ∧ ((∃ g ∈ st.flags, g.id ≠ f.id ∧ g.key = (applyUpdates f u).key) →
        updateFeatureFlagHandler k u st =
          (.failure 500 "Failed to update feature flag: duplicate key", st))
    ∧ (u = { enabled := some true } →
        (getFeatureFlagHandler k (updateFeatureFlagHandler k u st).2).1 =
          .success 200 { f with enabled := true }) := by
  have hfmem : f ∈ st.flags := List.mem_of_find?_eq_some hfind
  have hre := find?_map_update k f (applyUpdates f u) rfl st.flags hk hid hfind
  have hmain : (∀ g ∈ st.flags, g.id ≠ f.id → g.key ≠ (applyUpdates f u).key) →
      updateFeatureFlagHandler k u st =
        (.success 200 (applyUpdates f u),
         { st with
             flags := st.flags.map (fun g => if g.id == f.id then applyUpdates f u else g),
             flagCache := cacheStore st.flagCache k (applyUpdates f u) }) := by
    intro hcol
    have hany : (st.flags.any
        (fun g => g.id != f.id && g.key == (applyUpdates f u).key)) = false := by
      rw [List.any_eq_false]
      intro g hg
      simp only [Bool.and_eq_true, bne_iff_ne, ne_eq, beq_iff_eq, not_and]
      intro h1
      exact hcol g hg h1
    unfold updateFeatureFlagHandler
    rw [hfind]
    simp only [hany, Bool.false_eq_true, if_false, hre, ite_some_none_getD]
  refine ⟨?_, ?_, ?_⟩
  · intro hcol
    exact ⟨by rw [hmain hcol], by rw [hmain hcol],
           fun h => by simp [applyUpdates, h], fun h => by simp [applyUpdates, h],
           fun h => by simp [applyUpdates, h], fun h => by simp [applyUpdates, h],
           fun b h => by simp [applyUpdates, h]⟩
  · rintro ⟨g, hg, hgid, hgkey⟩
    have hany : (st.flags.any
        (fun x => x.id != f.id && x.key == (applyUpdates f u).key)) = true := by
      rw [List.any_eq_true]
      exact ⟨g, hg, by simp [hgid, hgkey]⟩
    unfold updateFeatureFlagHandler
    rw [hfind]
    simp [hany]
  · intro hu
    subst hu
    have hcol : ∀ g ∈ st.flags, g.id ≠ f.id →
        g.key ≠ (applyUpdates f { enabled := some true }).key := by
      intro g hg hgid hgkey
      exact hgid (congrArg FeatureFlag.id (List.inj_on_of_nodup_map hk hg hfmem hgkey))
    rw [hmain hcol, getFeatureFlagHandler_cache_hit _ _ _ (cacheLoad_cacheStore_self _ _ _)]
    rfl

theorem patch_partial_update_witness :
    ((oneFlagState.flags.map (fun g => g.key)).Nodup
      ∧ (oneFlagState.flags.map (fun g => g.id)).Nodup
      ∧ oneFlagState.flags.find? (fun g => g.key == "k") = some flagOff
      ∧ (∀ g ∈ oneFlagState.flags, g.id ≠ flagOff.id →
          g.key ≠ (applyUpdates flagOff { enabled := some true }).key))
    ∧ (updateFeatureFlagHandler "k" { enabled := some true } oneFlagState).1 =
        .success 200 (applyUpdates flagOff { enabled := some true })
    ∧ (getFeatureFlagHandler "k"
        (updateFeatureFlagHandler "k" { enabled := some true } oneFlagState).2).1 =
        .success 200 { flagOff with enabled := true }
    ∧ updateFeatureFlagHandler "k" { key := some "b" } twoFlagState =
        (.failure 500 "Failed to update feature flag: duplicate key", twoFlagState) :=
  ⟨⟨by decide, by decide, by decide, by decide⟩,
   ((patch_partial_update oneFlagState "k" { enabled := some true } flagOff
      (by decide) (by decide) (by decide)).1 (by decide)).1,
   (patch_partial_update oneFlagState "k" { enabled := some true } flagOff
      (by decide) (by decide) (by decide)).2.2 rfl,
   (patch_partial_update twoFlagState "k" { key := some "b" } flagOff
      (by decide) (by decide) (by decide)).2.1 ⟨flagB, by decide, by decide, by decide⟩⟩

theorem seedItems_all_present :
    ∀ (l : List UserBody) (i : Nat) (st : BackendState),
      (∀ b ∈ l, st.users.any (fun x => x.email == b.email) = true) →
      seedItems (fun _ => false) i l st = ((0, l.length, []), st) := by
  intro l
  induction l with
  | nil => intro i st _; rfl
  | cons b rest ih =>
    intro i st h
    have hb := h b (List.mem_cons_self b rest)
    simp only [seedItems, Bool.false_eq_true, if_false, hb, if_true]
    rw [ih (i + 1) st (fun b2 hb2 => h b2 (List.mem_cons_of_mem b hb2))]
    rfl

theorem seedItems_all_new :
    ∀ (l : List UserBody) (i : Nat) (st : BackendState),
      (l.map (fun b => b.email)).Nodup →
      (∀ b ∈ l, st.users.any (fun x => x.email == b.email) = false) →
      (seedItems (fun _ => false) i l st).1 = (l.length, 0, [])
      ∧ (seedItems (fun _ => false) i l st).2.users.map (fun x => x.email)
          = st.users.map (fun x => x.email) ++ l.map (fun b => b.email) := by
  intro l
  induction l with
  | nil => intro i st _ _; exact ⟨rfl, by simp [seedItems]⟩
  | cons b rest ih =>
    intro i st hnd h
    simp only [List.map_cons, List.nodup_cons] at hnd
    have hb := h b (List.mem_cons_self b rest)
    simp only [seedItems, Bool.false_eq_true, if_false, hb]
    have hrest : ∀ b2 ∈ rest,
        ((st.users ++ [({ id := st.userNextId, email := b.email, name := b.name } : User)]).any
          (fun x => x.email == b2.email)) = false := by
      intro b2 hb2
      rw [List.any_append]
      have h1 := h b2 (List.mem_cons_of_mem b hb2)
      have h2 : b.email ≠ b2.email := fun e => hnd.1 (List.mem_map.2 ⟨b2, hb2, e.symm⟩)
      simp [h1, h2]
    obtain ⟨ih1, ih2⟩ := ih (i + 1)
      { st with users := st.users ++ [({ id := st.userNextId, email := b.email, name := b.name } : User)],
                userNextId := st.userNextId + 1 } hnd.2 hrest
    refine ⟨by rw [ih1]; rfl, ?_⟩
    rw [ih2]
    simp

/-- C8: starting from a datastore holding none of the five sample emails
and with no datastore errors, two consecutive POST /api/seed calls yield
created 5, skipped 0 on the first call and created 0, skipped 5 with no
errors on the second, and the second call leaves the state (datastore and
cache) exactly as the first call left it. -/
theorem seed_idempotent (st : BackendState)
    (habsent : ∀ u ∈ st.users, ∀ b ∈ sampleUsers, u.email ≠ b.email) :
    (seedDatabaseHandler (fun _ => false) st).1.created = 5
    ∧ (seedDatabaseHandler (fun _ => false) st).1.skipped = 0
    ∧ (seedDatabaseHandler (fun _ => false)
        (seedDatabaseHandler (fun _ => false) st).2).1.created = 0
    ∧ (seedDatabaseHandler (fun _ => false)
        (seedDatabaseHandler (fun _ => false) st).2).1.skipped = 5
    ∧ (seedDatabaseHandler (fun _ => false)
        (seedDatabaseHandler (fun _ => false) st).2).2 =
      (seedDatabaseHandler (fun _ => false) st).2 := by
  have hany : ∀ b ∈ sampleUsers, st.users.any (fun x => x.email == b.email) = false := by
    intro b hb
    rw [List.any_eq_false]
    intro x hx
    simp only [beq_iff_eq]
    exact habsent x hx b hb
  obtain ⟨h1, h2⟩ := seedItems_all_new sampleUsers 0 st (by decide) hany
  have hpresent : ∀ b ∈ sampleUsers,
      ((seedItems (fun _ => false) 0 sampleUsers st).2.users.any
        (fun x => x.email == b.email)) = true := by
    intro b hb
    rw [List.any_eq_true]
    have hmem : b.email ∈ (seedItems (fun _ => false) 0 sampleUsers st).2.users.map
        (fun x => x.email) := by
      rw [h2]
      exact List.mem_append_right _ (List.mem_map.2 ⟨b, hb, rfl⟩)
    rcases List.mem_map.1 hmem with ⟨x, hx, he⟩
    exact ⟨x, hx, by simp [he]⟩
  have h3 := seedItems_all_present sampleUsers 0 _ hpresent
  have hlen : sampleUsers.length = 5 := rfl
  refine ⟨?_, ?_, ?_, ?_, ?_⟩ <;>
    simp [seedDatabaseHandler, h1, h3, hlen]

theorem seed_idempotent_witness :
    (∀ u ∈ initialState.users, ∀ b ∈ sampleUsers, u.email ≠ b.email)
    ∧ (seedDatabaseHandler (fun _ => false) initialState).1.created = 5
    ∧ (seedDatabaseHandler (fun _ => false) initialState).1.skipped = 0
    ∧ (seedDatabaseHandler (fun _ => false)
        (seedDatabaseHandler (fun _ => false) initialState).2).1.created = 0
    ∧ (seedDatabaseHandler (fun _ => false)
        (seedDatabaseHandler (fun _ => false) initialState).2).1.skipped = 5
    ∧ (seedDatabaseHandler (fun _ => false)
        (seedDatabaseHandler (fun _ => false) initialState).2).2 =
      (seedDatabaseHandler (fun _ => false) initialState).2 := by
  refine ⟨by decide, ?_⟩
  have h := seed_idempotent initialState (by decide)
  exact ⟨h.1, h.2.1, h.2.2.1, h.2.2.2.1, h.2.2.2.2⟩

/-- C9: creating a user with a valid email and name not yet present
succeeds with 201 and appends the record; repeating the same call then
fails with 500 (the unique-index violation surfaced by the insert, a
non-2xx status) and leaves the datastore, first-created record included,
exactly as it was after the first call. -/
theorem createUser_duplicate_email (st : BackendState) (e n : String)
    (he : e ≠ "") (hn : n ≠ "")
    (habsent : ∀ u ∈ st.users, u.email ≠ e) :
    (createUserHandler { email := e, name := n } st).1 =
      .success 201 { id := st.userNextId, email := e, name := n }
    ∧ (createUserHandler { email := e, name := n } st).2.users =
        st.users ++ [{ id := st.userNextId, email := e, name := n }]
    ∧ (createUserHandler { email := e, name := n }
        (createUserHandler { email := e, name := n } st).2).1 =
      .failure 500 "Failed to create user: duplicate email"
    ∧ (createUserHandler { email := e, name := n }
        (createUserHandler { email := e, name := n } st).2).2 =
      (createUserHandler { email := e, name := n } st).2 := by
  have hval : ¬(({ email := e, name := n } : UserBody).email = ""
      ∨ ({ email := e, name := n } : UserBody).name = "") := by
    simp only [not_or]
    exact ⟨he, hn⟩
  have hany1 : st.users.any (fun u => u.email == ({ email := e, name := n } : UserBody).email)
      = false := by
    rw [List.any_eq_false]
    intro x hx
    simp only [beq_iff_eq]
    exact habsent x hx
  have h1 : createUserHandler { email := e, name := n } st =
      (.success 201 { id := st.userNextId, email := e, name := n },
       { st with users := st.users ++ [{ id := st.userNextId, email := e, name := n }],
                 userNextId := st.userNextId + 1 }) := by
    unfold createUserHandler
    rw [if_neg hval, if_neg (by rw [hany1]; exact Bool.false_ne_true)]
  have hany2 : (st.users ++ [({ id := st.userNextId, email := e, name := n } : User)]).any
      (fun u => u.email == ({ email := e, name := n } : UserBody).email) = true := by
    rw [List.any_append]
    simp
  refine ⟨by rw [h1], by rw [h1], ?_, ?_⟩ <;>
  · rw [h1]
    unfold createUserHandler
    rw [if_neg hval, if_pos (by exact hany2)]

theorem createUser_duplicate_email_witness :
    ("alice@example.com" ≠ "" ∧ "Alice Johnson" ≠ ""
      ∧ (∀ u ∈ initialState.users, u.email ≠ "alice@example.com"))
    ∧ (createUserHandler { email := "alice@example.com", name := "Alice Johnson" }
        initialState).1 =
      .success 201 { id := 1, email := "alice@example.com", name := "Alice Johnson" }
    ∧ (createUserHandler { email := "alice@example.com", name := "Alice Johnson" }
        (createUserHandler { email := "alice@example.com", name := "Alice Johnson" }
          initialState).2).1 =
      .failure 500 "Failed to create user: duplicate email" := by
  refine ⟨⟨by decide, by decide, by decide⟩, ?_, ?_⟩
  · exact (createUser_duplicate_email initialState "alice@example.com" "Alice Johnson"
      (by decide) (by decide) (by decide)).1
  · exact (createUser_duplicate_email initialState "alice@example.com" "Alice Johnson"
      (by decide) (by decide) (by decide)).2.2.1

end Backend
